import Mathlib

/-!
Shallow embedding of the OI_CHARTS_PYTHON backend (pybackend/) and proofs
about its specification.

Modelling conventions:
* Python/JSON values are the inductive `PyVal`; Python `float` is modelled by
  `ℚ` (exact arithmetic; every arithmetic operation the embedded code performs
  is mirrored operation-for-operation, so algebraic identities between computed
  fields are preserved).
* Fallible Python code returns `Except PyError _`; an uncaught exception is an
  `Except.error`.
* Instants are seconds since the Unix epoch (a `Nat`).  The ISO strings the
  code produces with `strftime` are injective images of these numbers:
  two `"%Y-%m-%dT%H:%M:%SZ"` strings share their 16-character minute prefix
  (the `LIKE` pattern in `save_snapshot`) iff the instants lie in the same
  minute, and two `"%Y-%m-%d"` strings are equal iff the instants lie in the
  same calendar day, so minute buckets are modelled by `t / 60` and calendar
  days by day numbers.
-/

namespace OIC

/-- Exception classes that the embedded code can raise or catch. -/
inductive PyError
  | valueError
  | typeError
  | overflowError
  | attributeError
deriving Repr, DecidableEq

/-- JSON-like Python values as seen by the backend (payloads are parsed JSON). -/
inductive PyVal where
  | none : PyVal
  | bool : Bool → PyVal
  | int : Int → PyVal
  | float : ℚ → PyVal
  | str : String → PyVal
  | list : List PyVal → PyVal
  | dict : List (String × PyVal) → PyVal

/-- Association-list lookup, modelling Python `dict` key lookup. -/
def lk (kvs : List (String × PyVal)) (k : String) : Option PyVal :=
  (kvs.find? (fun p => p.1 == k)).map Prod.snd

/-- Digit run as a natural number. -/
def natOfDigits (cs : List Char) : Nat :=
  cs.foldl (fun a c => a * 10 + (c.toNat - 48)) 0

/-- Non-empty run of decimal digits. -/
def isDigits (cs : List Char) : Bool :=
  !cs.isEmpty && cs.all Char.isDigit

/-- Strip an optional leading sign; `true` means negative. -/
def splitSign : List Char → Bool × List Char
  | '+' :: rest => (false, rest)
  | '-' :: rest => (true, rest)
  | cs => (false, cs)

/-- Split a character list at the first character satisfying `p`. -/
def breakOn (p : Char → Bool) : List Char → List Char × Option (List Char)
  | [] => ([], Option.none)
  | c :: rest =>
      if p c then ([], Option.some rest)
      else
        let r := breakOn p rest
        (c :: r.1, r.2)

/-- Unsigned decimal mantissa `D+ | D+.D* | .D+` as a rational. -/
def parseFrac (cs : List Char) : Option ℚ :=
  match breakOn (fun c => c == '.') cs with
  | (ip, Option.none) =>
      if isDigits ip then Option.some ((natOfDigits ip : ℚ)) else Option.none
  | (ip, Option.some fp) =>
      if ip.all Char.isDigit && fp.all Char.isDigit && (!ip.isEmpty || !fp.isEmpty) then
        Option.some ((natOfDigits ip : ℚ) + (natOfDigits fp : ℚ) / (10 : ℚ) ^ fp.length)
      else Option.none

/-- Model of Python `float(str)` on decimal literals (optionally signed
mantissa with optional decimal exponent); strings outside this grammar fail,
which the caller observes as a `ValueError`. -/
def floatOfString (s : String) : Option ℚ :=
  let sp := splitSign s.toList
  match breakOn (fun c => c == 'e' || c == 'E') sp.2 with
  | (mant, Option.none) =>
      (parseFrac mant).map (fun m => if sp.1 then -m else m)
  | (mant, Option.some ec) =>
      match parseFrac mant with
      | Option.none => Option.none
      | Option.some m =>
          let m' := if sp.1 then -m else m
          let ep := splitSign ec
          if isDigits ep.2 then
            Option.some (if ep.1 then m' / (10 : ℚ) ^ natOfDigits ep.2
                         else m' * (10 : ℚ) ^ natOfDigits ep.2)
          else Option.none

/-- Exact CPython overflow threshold for `float(int)`: conversion rounds to
53 bits (round-half-even) and raises `OverflowError` iff the rounded magnitude
reaches `2 ^ 1024`, i.e. iff the integer's magnitude is at least
`2 ^ 1024 - 2 ^ 970`. -/
def floatOverflowBound : Nat := 2 ^ 1024 - 2 ^ 970

/-- Model of the Python builtin `float` on JSON-like values.  `None` and
containers raise `TypeError`, unparsable strings raise `ValueError`, and
integers beyond the double range raise `OverflowError`.  Finite results are
carried exactly as rationals. -/
def pyFloat : PyVal → Except PyError ℚ
  | PyVal.none => Except.error PyError.typeError
  | PyVal.bool b => Except.ok (if b then 1 else 0)
  | PyVal.int n =>
      if floatOverflowBound ≤ n.natAbs then Except.error PyError.overflowError
      else Except.ok (n : ℚ)
  | PyVal.float q => Except.ok q
  | PyVal.str s =>
      match floatOfString s with
      | Option.some q => Except.ok q
      | Option.none => Except.error PyError.valueError
  | PyVal.list _ => Except.error PyError.typeError
  | PyVal.dict _ => Except.error PyError.typeError

/-- pybackend/calculator.py, `_safe_float(val, default=0.0)`: `try: return
float(val) except (TypeError, ValueError): return default`.  Exactly the two
named exception classes are caught; any other exception propagates. -/
def _safe_float (val : PyVal) (default : ℚ) : Except PyError ℚ :=
  match pyFloat val with
  | Except.ok q => Except.ok q
  | Except.error PyError.typeError => Except.ok default
  | Except.error PyError.valueError => Except.ok default
  | Except.error e => Except.error e

/-- One side's market data after coercion: `{oi, prev_oi, ltp, volume}`. -/
structure SideData where
  oi : ℚ
  prev_oi : ℚ
  ltp : ℚ
  vol : ℚ

/-- The running accumulators of `calculate_indicators` (calculator.py
lines 111-128), in source order; all start at `0.0`. -/
structure Totals where
  total_ce_oi_value : ℚ
  total_pe_oi_value : ℚ
  total_ce_oi_value_2 : ℚ
  total_pe_oi_value_2 : ℚ
  total_ce_oi_change_value : ℚ
  total_pe_oi_change_value : ℚ
  total_ce_trade_value : ℚ
  total_pe_trade_value : ℚ
  total_ce_oi : ℚ
  total_pe_oi : ℚ
  total_ce_chg : ℚ
  total_pe_chg : ℚ
  total_ce_vol : ℚ
  total_pe_vol : ℚ
  underlying : ℚ

/-- All accumulators initialised to `0.0`. -/
def initTotals : Totals := ⟨0, 0, 0, 0, 0, 0, 0, 0, 0, 0, 0, 0, 0, 0, 0⟩

/-- Python `v.get(k, default)`: key lookup on a `dict`, `AttributeError` on
every other value (no other JSON-like value has a `.get` method). -/
def pyGetAttr (v : PyVal) (k : String) (default : PyVal) : Except PyError PyVal :=
  match v with
  | PyVal.dict kvs => Except.ok ((lk kvs k).getD default)
  | _ => Except.error PyError.attributeError

/-- Exception propagation: evaluate `x`; an uncaught exception aborts the
enclosing computation, otherwise continue with the value. -/
def pbind {α β : Type} (x : Except PyError α) (f : α → Except PyError β) :
    Except PyError β :=
  match x with
  | Except.error e => Except.error e
  | Except.ok a => f a

/-- The read `_safe_float(row.get("underlying_spot_price", 0))` (calculator.py:132). -/
def readSpot (row : PyVal) : Except PyError ℚ :=
  pbind (pyGetAttr row "underlying_spot_price" (PyVal.int 0)) fun v =>
  _safe_float v 0

/-- Field extraction for one side (calculator.py:137-141 / 165-169):
`md = row.get(side, {}).get("market_data", {})` then `_safe_float` of
`md.get("oi", 0)`, `md.get("prev_oi", 0)`, `md.get("ltp", 0)`,
`md.get("volume", 0)`, in source order. -/
def readSide (row : PyVal) (side : String) : Except PyError SideData :=
  pbind (pyGetAttr row side (PyVal.dict [])) fun co =>
  pbind (pyGetAttr co "market_data" (PyVal.dict [])) fun md =>
  pbind (pyGetAttr md "oi" (PyVal.int 0)) fun oiV =>
  pbind (_safe_float oiV 0) fun oi =>
  pbind (pyGetAttr md "prev_oi" (PyVal.int 0)) fun prevV =>
  pbind (_safe_float prevV 0) fun prev =>
  pbind (pyGetAttr md "ltp" (PyVal.int 0)) fun ltpV =>
  pbind (_safe_float ltpV 0) fun ltp =>
  pbind (pyGetAttr md "volume" (PyVal.int 0)) fun volV =>
  pbind (_safe_float volV 0) fun vol =>
  Except.ok ⟨oi, prev, ltp, vol⟩

/-- The pure accumulation a loop iteration performs once `spot` and both
sides' fields have been read (calculator.py:133-188).  The `_2` variants add
`oi * ltp` only when that side's `volume > 0`; `underlying` takes the first
non-zero spot (`if spot and not underlying`). -/
def updateTotals (acc : Totals) (spot : ℚ) (c p : SideData) : Totals :=
  { total_ce_oi_value := acc.total_ce_oi_value + c.oi * c.ltp
    total_pe_oi_value := acc.total_pe_oi_value + p.oi * p.ltp
    total_ce_oi_value_2 :=
      if 0 < c.vol then acc.total_ce_oi_value_2 + c.oi * c.ltp
      else acc.total_ce_oi_value_2
    total_pe_oi_value_2 :=
      if 0 < p.vol then acc.total_pe_oi_value_2 + p.oi * p.ltp
      else acc.total_pe_oi_value_2
    total_ce_oi_change_value := acc.total_ce_oi_change_value + (c.oi - c.prev_oi) * c.ltp
    total_pe_oi_change_value := acc.total_pe_oi_change_value + (p.oi - p.prev_oi) * p.ltp
    total_ce_trade_value := acc.total_ce_trade_value + c.vol * c.ltp
    total_pe_trade_value := acc.total_pe_trade_value + p.vol * p.ltp
    total_ce_oi := acc.total_ce_oi + c.oi
    total_pe_oi := acc.total_pe_oi + p.oi
    total_ce_chg := acc.total_ce_chg + (c.oi - c.prev_oi)
    total_pe_chg := acc.total_pe_chg + (p.oi - p.prev_oi)
    total_ce_vol := acc.total_ce_vol + c.vol
    total_pe_vol := acc.total_pe_vol + p.vol
    underlying := if spot ≠ 0 ∧ acc.underlying = 0 then spot else acc.underlying }

/-- One iteration of the `for row in rows` loop: the reads happen in source
order (spot, then call side, then put side) and an uncaught exception from any
of them aborts the whole call. -/
def stepRow (acc : Totals) (row : PyVal) : Except PyError Totals :=
  pbind (readSpot row) fun spot =>
  pbind (readSide row "call_options") fun c =>
  pbind (readSide row "put_options") fun p =>
  Except.ok (updateTotals acc spot c p)

/-- The whole `for row in rows` loop. -/
def foldRows : Totals → List PyVal → Except PyError Totals
  | acc, [] => Except.ok acc
  | acc, row :: rest =>
      pbind (stepRow acc row) fun acc' => foldRows acc' rest

/-- The flat result mapping of `calculate_indicators` (calculator.py:212-235). -/
structure Indicators where
  underlying : ℚ
  nifty_price : ℚ
  total_ce_oi_value : ℚ
  total_pe_oi_value : ℚ
  total_ce_oi_value_2 : ℚ
  total_pe_oi_value_2 : ℚ
  total_ce_oi_change_value : ℚ
  total_pe_oi_change_value : ℚ
  total_ce_trade_value : ℚ
  total_pe_trade_value : ℚ
  diff_oi_value : ℚ
  ratio_oi_value : ℚ
  diff_oi_value_2 : ℚ
  ratio_oi_value_2 : ℚ
  diff_trade_value : ℚ
  test_value : ℚ
  ce_oi : ℚ
  pe_oi : ℚ
  ce_chg_oi : ℚ
  pe_chg_oi : ℚ
  ce_vol : ℚ
  pe_vol : ℚ

/-- Derived indicators from the final accumulators (calculator.py:190-235):
differences are call-minus-put, ratios are call-over-put guarded by a
zero-denominator check that yields `0.0`, `test_value` is the constant `0.0`
placeholder. -/
def mkIndicators (acc : Totals) : Indicators :=
  { underlying := acc.underlying
    nifty_price := acc.underlying
    total_ce_oi_value := acc.total_ce_oi_value
    total_pe_oi_value := acc.total_pe_oi_value
    total_ce_oi_value_2 := acc.total_ce_oi_value_2
    total_pe_oi_value_2 := acc.total_pe_oi_value_2
    total_ce_oi_change_value := acc.total_ce_oi_change_value
    total_pe_oi_change_value := acc.total_pe_oi_change_value
    total_ce_trade_value := acc.total_ce_trade_value
    total_pe_trade_value := acc.total_pe_trade_value
    diff_oi_value := acc.total_ce_oi_value - acc.total_pe_oi_value
    ratio_oi_value :=
      if acc.total_pe_oi_value ≠ 0 then acc.total_ce_oi_value / acc.total_pe_oi_value
      else 0
    diff_oi_value_2 := acc.total_ce_oi_value_2 - acc.total_pe_oi_value_2
    ratio_oi_value_2 :=
      if acc.total_pe_oi_value_2 ≠ 0 then acc.total_ce_oi_value_2 / acc.total_pe_oi_value_2
      else 0
    diff_trade_value := acc.total_ce_trade_value - acc.total_pe_trade_value
    test_value := 0
    ce_oi := acc.total_ce_oi
    pe_oi := acc.total_pe_oi
    ce_chg_oi := acc.total_ce_chg
    pe_chg_oi := acc.total_pe_chg
    ce_vol := acc.total_ce_vol
    pe_vol := acc.total_pe_vol }

/-- The check `api_response.get("status") != "success"`, negated: among JSON-like values
only the exact string `"success"` compares equal to `"success"`. -/
def statusIsSuccess (api : List (String × PyVal)) : Bool :=
  match (lk api "status").getD PyVal.none with
  | PyVal.str s => s == "success"
  | _ => false

/-- The read `api_response.get("data", [])` (calculator.py:107). -/
def dataVal (api : List (String × PyVal)) : PyVal :=
  (lk api "data").getD (PyVal.list [])

/-- The check `not isinstance(rows, list)` (calculator.py:108). -/
def dataBad (api : List (String × PyVal)) : Bool :=
  match dataVal api with
  | PyVal.list _ => false
  | _ => true

/-- The row list the loop runs over (empty when `data` is not a list, in which
case `calculate_indicators` never reaches the loop). -/
def pyRows (api : List (String × PyVal)) : List PyVal :=
  match dataVal api with
  | PyVal.list rows => rows
  | _ => []

/-- pybackend/calculator.py, `calculate_indicators(api_response)`: raise
`ValueError` unless `status == "success"`, raise `ValueError` unless the
`data` field (default `[]`) is a list, then run the accumulation loop and
return the derived indicator mapping. -/
def calculate_indicators (api : List (String × PyVal)) : Except PyError Indicators :=
  if statusIsSuccess api = false then Except.error PyError.valueError
  else
    match dataVal api with
    | PyVal.list rows =>
        match foldRows initTotals rows with
        | Except.error e => Except.error e
        | Except.ok acc => Except.ok (mkIndicators acc)
    | _ => Except.error PyError.valueError

/-- A row whose spot and both market-data sides extract without an uncaught
exception; such rows are exactly the ones the loop body accepts. -/
def wellFormedRow (row : PyVal) : Bool :=
  (match readSpot row with | Except.ok _ => true | Except.error _ => false) &&
  (match readSide row "call_options" with | Except.ok _ => true | Except.error _ => false) &&
  (match readSide row "put_options" with | Except.ok _ => true | Except.error _ => false)

/-! ### Time helpers (pybackend/database.py, pybackend/main.py)

An instant is seconds since the Unix epoch in UTC.  `_IST = timedelta(hours=5,
minutes=30)` is the constant 19800-second shift the code adds before reading
civil fields. -/

/-- The `_IST` shift, in seconds. -/
def istShift : Nat := 19800

/-- The minute bucket `now.strftime("%Y-%m-%dT%H:%M")` stands for
(database.py:235): two instants produce the same 16-character prefix iff they
lie in the same minute. -/
def minuteBucket (t : Nat) : Nat := t / 60

/-- The UTC calendar day `now.strftime("%Y-%m-%d")` stands for
(database.py:236), as an epoch-day number. -/
def utcDay (t : Nat) : Nat := t / 86400

/-- Model of `_today_ist()` (database.py:149-150): the calendar day of
`datetime.now(timezone.utc) + _IST`, as an epoch-day number. -/
def istDay (t : Nat) : Nat := (t + istShift) / 86400

/-- Python `.weekday()` of the IST-shifted instant, Monday = 0 (1970-01-01 was a
Thursday, weekday 3). -/
def weekdayIST (t : Nat) : Nat := ((t + istShift) / 86400 + 3) % 7

/-- The value `now.hour * 60 + now.minute` of the IST-shifted instant (main.py:45). -/
def hmIST (t : Nat) : Nat := ((t + istShift) % 86400) / 60

/-! ### Snapshot store (pybackend/database.py)

Only the columns that the dedup / purge / identity logic reads are modelled;
the remaining ~32 indicator columns are copied verbatim from the `ind` dict at
insert time and never influence which rows exist or what `save_snapshot`
returns. -/

/-- One `snapshots` row: `id` (AUTOINCREMENT), `timestamp` (full-second
instant) and `date` (epoch-day number standing for the stored `%Y-%m-%d`
string). -/
structure SnapshotRow where
  id : Nat
  ts : Nat
  date : Nat
deriving Repr, DecidableEq

/-- The SQLite state the claims touch: the `snapshots` table in insertion
order, the next AUTOINCREMENT id, and `metadata['current_url']`
(initialised to `''` by `init_db`). -/
structure Store where
  rows : List SnapshotRow
  nextId : Nat
  currentUrl : String
deriving Repr, DecidableEq

/-- A freshly initialised database. -/
def emptyStore : Store := ⟨[], 1, ""⟩

/-- The query `SELECT DISTINCT date FROM snapshots ORDER BY date DESC LIMIT 1`: the
largest stored date, or none when the table is empty. -/
def maxStoredDate (s : Store) : Option Nat :=
  s.rows.foldl
    (fun m r =>
      match m with
      | Option.none => Option.some r.date
      | Option.some d => Option.some (max d r.date))
    Option.none

/-- database.py:153-163, `check_and_clear_old_data()`: if the most recent
stored date differs from today computed in IST (`_today_ist`), delete every
snapshot.  Returns the new state and whether it cleared. -/
def check_and_clear_old_data (s : Store) (t : Nat) : Store × Bool :=
  match maxStoredDate s with
  | Option.some d =>
      if d ≠ istDay t then ({ s with rows := [] }, true) else (s, false)
  | Option.none => (s, false)

/-- The store as `save_snapshot` sees it after its opening
`check_and_clear_old_data()` call. -/
def purgedStore (s : Store) (t : Nat) : Store :=
  (check_and_clear_old_data s t).1

/-- What `save_snapshot` returns: `{id, timestamp, date, already_existed}`. -/
structure SaveResult where
  id : Nat
  ts : Nat
  date : Nat
  already_existed : Bool
deriving Repr, DecidableEq

/-- database.py:217-303, `save_snapshot(ind, raw)` at instant `t`: run
`check_and_clear_old_data` first, then look for a row whose stored timestamp
matches the minute-bucket `LIKE` pattern; if found return its identity with
`already_existed = True` and write nothing, otherwise insert a new row whose
`timestamp` keeps full second precision and whose `date` is
`now.strftime("%Y-%m-%d")` on the UTC `now` (the UTC day, not `_today_ist`). -/
def save_snapshot (s : Store) (t : Nat) : Store × SaveResult :=
  match (purgedStore s t).rows.find? (fun r => minuteBucket r.ts == minuteBucket t) with
  | Option.some r => (purgedStore s t, ⟨r.id, r.ts, r.date, true⟩)
  | Option.none =>
      ({ purgedStore s t with
          rows := (purgedStore s t).rows ++ [⟨(purgedStore s t).nextId, t, utcDay t⟩],
          nextId := (purgedStore s t).nextId + 1 },
       ⟨(purgedStore s t).nextId, t, utcDay t, false⟩)

/-- database.py:198-212, `check_and_clear_for_url_change(new_url)`: when a
non-empty stored identity differs from the new one, delete all snapshots,
adopt the new identity and report `True`; otherwise just adopt the new
identity and report `False`. -/
def check_and_clear_for_url_change (s : Store) (newUrl : String) : Store × Bool :=
  if s.currentUrl ≠ "" ∧ s.currentUrl ≠ newUrl then
    ({ s with rows := [], currentUrl := newUrl }, true)
  else
    ({ s with currentUrl := newUrl }, false)

/-! ### Scheduler (pybackend/main.py) -/

/-- main.py:37-46, `_is_market_hours()`: `False` on IST Saturday/Sunday
(`weekday() >= 5`), else `True` iff `9*60+14 <= hour*60+minute <= 15*60+31`. -/
def _is_market_hours (t : Nat) : Bool :=
  if 5 ≤ weekdayIST t then false
  else decide (9 * 60 + 14 ≤ hmIST t) && decide (hmIST t ≤ 15 * 60 + 31)

/-- The externally visible effects of one scheduler tick. -/
inductive FetchStep
  | vendorFetch
  | saveRow
deriving Repr, DecidableEq

/-- main.py:103-144, `scheduled_fetch()` as its effect trace: return
immediately (no fetch, no store) outside market hours, likewise when no
session is ready; otherwise fetch (the 5-attempt retry loop is one abstract
fetch effect) and, if the fetch succeeds, save a snapshot. -/
def scheduled_fetch (t : Nat) (sessionReady : Bool) (fetchOk : Bool) : List FetchStep :=
  if _is_market_hours t = false then []
  else if sessionReady = false then []
  else if fetchOk then [FetchStep.vendorFetch, FetchStep.saveRow]
  else [FetchStep.vendorFetch]

/-! ### Concrete test vectors -/

/-- A well-formed option-chain row as Upstox returns it. -/
def mkChainRow (spot coi cprev cltp cvol poi pprev pltp pvol : ℚ) : PyVal :=
  PyVal.dict
    [("underlying_spot_price", PyVal.float spot),
     ("call_options", PyVal.dict
        [("market_data", PyVal.dict
            [("oi", PyVal.float coi), ("prev_oi", PyVal.float cprev),
             ("ltp", PyVal.float cltp), ("volume", PyVal.float cvol)])]),
     ("put_options", PyVal.dict
        [("market_data", PyVal.dict
            [("oi", PyVal.float poi), ("prev_oi", PyVal.float pprev),
             ("ltp", PyVal.float pltp), ("volume", PyVal.float pvol)])])]

/-- Synthetic two-strike payload: call OI {100, 50}, prev OI {90, 50},
LTP {10, 8}; put OI {40, 60}, prev OI {50, 60}, LTP {12, 9}; every volume 1. -/
def wApi : List (String × PyVal) :=
  [("status", PyVal.str "success"),
   ("data", PyVal.list
      [mkChainRow 25000 100 90 10 1 40 50 12 1,
       mkChainRow 25000 50 50 8 1 60 60 9 1])]

/-- The indicator set computed from `wApi` (the fallback branch is dead:
`calculate_indicators wApi` succeeds). -/
def wInd : Indicators :=
  match calculate_indicators wApi with
  | Except.ok r => r
  | Except.error _ => mkIndicators initTotals

/-- The error classes the accumulation loop can actually raise: an
`AttributeError` from a `.get` on a non-dict, or an `OverflowError` escaping
`_safe_float`. -/
def AErr (e : PyError) : Prop :=
  e = PyError.attributeError ∨ e = PyError.overflowError

/-! ### Helper lemmas -/

/-- Propagation of a success just continues. -/
theorem pbind_ok (a : α) (f : α → Except PyError β) :
    pbind (Except.ok a) f = f a := rfl

/-- Propagation of a failure re-raises it. -/
theorem pbind_err (e : PyError) (f : α → Except PyError β) :
    pbind (Except.error e) f = Except.error e := rfl

/-- If both stages of a `pbind` can only fail with loop errors, so can the
whole chain. -/
theorem pbind_aerr {x : Except PyError α} {f : α → Except PyError β}
    (hx : ∀ e, x = Except.error e → AErr e)
    (hf : ∀ a e, f a = Except.error e → AErr e) :
    ∀ e, pbind x f = Except.error e → AErr e := by
  intro e h
  cases hx' : x with
  | error e' =>
      rw [hx', pbind_err] at h
      injection h with h2
      exact h2 ▸ hx e' hx'
  | ok a =>
      rw [hx', pbind_ok] at h
      exact hf a e h

/-- A `.get` call only ever raises `AttributeError`. -/
theorem pyGetAttr_aerr (v : PyVal) (k : String) (d : PyVal) :
    ∀ e, pyGetAttr v k d = Except.error e → AErr e := by
  intro e h
  cases v <;> simp [pyGetAttr] at h <;> exact Or.inl h.symm

/-- The builtin `float` never raises `AttributeError`. -/
theorem pyFloat_not_attr (v : PyVal) :
    pyFloat v ≠ Except.error PyError.attributeError := by
  cases v <;> simp [pyFloat] <;> split <;> simp

/-- Since `_safe_float` catches `TypeError` and `ValueError`, the only exception
that can escape it is `OverflowError`. -/
theorem safe_float_aerr (v : PyVal) (q : ℚ) :
    ∀ e, _safe_float v q = Except.error e → AErr e := by
  intro e h
  unfold _safe_float at h
  cases hp : pyFloat v with
  | ok r => rw [hp] at h; cases h
  | error e' =>
      rw [hp] at h
      cases e' with
      | typeError => cases h
      | valueError => cases h
      | overflowError => cases h; exact Or.inr rfl
      | attributeError => exact absurd hp (pyFloat_not_attr v)

/-- Spot extraction fails only with a loop error. -/
theorem readSpot_aerr (row : PyVal) :
    ∀ e, readSpot row = Except.error e → AErr e := by
  unfold readSpot
  exact pbind_aerr (pyGetAttr_aerr _ _ _) (fun v => safe_float_aerr _ _)

/-- Side extraction fails only with a loop error. -/
theorem readSide_aerr (row : PyVal) (side : String) :
    ∀ e, readSide row side = Except.error e → AErr e := by
  unfold readSide
  refine pbind_aerr (pyGetAttr_aerr _ _ _) (fun co => ?_)
  refine pbind_aerr (pyGetAttr_aerr _ _ _) (fun md => ?_)
  refine pbind_aerr (pyGetAttr_aerr _ _ _) (fun oiV => ?_)
  refine pbind_aerr (safe_float_aerr _ _) (fun oi => ?_)
  refine pbind_aerr (pyGetAttr_aerr _ _ _) (fun prevV => ?_)
  refine pbind_aerr (safe_float_aerr _ _) (fun prev => ?_)
  refine pbind_aerr (pyGetAttr_aerr _ _ _) (fun ltpV => ?_)
  refine pbind_aerr (safe_float_aerr _ _) (fun ltp => ?_)
  refine pbind_aerr (pyGetAttr_aerr _ _ _) (fun volV => ?_)
  refine pbind_aerr (safe_float_aerr _ _) (fun vol => ?_)
  intro e h
  cases h

/-- A loop iteration fails only with a loop error. -/
theorem stepRow_aerr (acc : Totals) (row : PyVal) :
    ∀ e, stepRow acc row = Except.error e → AErr e := by
  unfold stepRow
  refine pbind_aerr (readSpot_aerr _) (fun spot => ?_)
  refine pbind_aerr (readSide_aerr _ _) (fun c => ?_)
  refine pbind_aerr (readSide_aerr _ _) (fun p => ?_)
  intro e h
  cases h

/-- The whole loop fails only with a loop error; in particular a `ValueError`
can never originate inside the loop. -/
theorem foldRows_aerr (rows : List PyVal) :
    ∀ (acc : Totals) e, foldRows acc rows = Except.error e → AErr e := by
  induction rows with
  | nil => intro acc e h; cases h
  | cons row rest ih =>
      intro acc
      unfold foldRows
      exact pbind_aerr (stepRow_aerr _ _) (fun acc' => ih acc')

/-- Successful iterations are exactly `updateTotals` of the three reads. -/
theorem stepRow_ok_inv {acc : Totals} {row : PyVal} {t' : Totals}
    (h : stepRow acc row = Except.ok t') :
    ∃ spot c p, readSpot row = Except.ok spot ∧
      readSide row "call_options" = Except.ok c ∧
      readSide row "put_options" = Except.ok p ∧
      t' = updateTotals acc spot c p := by
  unfold stepRow at h
  cases h1 : readSpot row with
  | error e => rw [h1, pbind_err] at h; cases h
  | ok spot =>
  rw [h1, pbind_ok] at h
  cases h2 : readSide row "call_options" with
  | error e => rw [h2, pbind_err] at h; cases h
  | ok c =>
  rw [h2, pbind_ok] at h
  cases h3 : readSide row "put_options" with
  | error e => rw [h3, pbind_err] at h; cases h
  | ok p =>
  rw [h3, pbind_ok] at h
  cases h
  exact ⟨spot, c, p, rfl, rfl, rfl, rfl⟩

/-- A well-formed row makes its loop iteration succeed, from any
accumulator state. -/
theorem stepRow_ok_of_wf {row : PyVal} (hw : wellFormedRow row = true)
    (acc : Totals) : ∃ t', stepRow acc row = Except.ok t' := by
  unfold wellFormedRow at hw
  rw [Bool.and_eq_true, Bool.and_eq_true] at hw
  obtain ⟨⟨h1, h2⟩, h3⟩ := hw
  cases hs : readSpot row with
  | error e => rw [hs] at h1; cases h1
  | ok spot =>
  cases hc : readSide row "call_options" with
  | error e => rw [hc] at h2; cases h2
  | ok c =>
  cases hp : readSide row "put_options" with
  | error e => rw [hp] at h3; cases h3
  | ok p =>
  refine ⟨updateTotals acc spot c p, ?_⟩
  unfold stepRow
  rw [hs, pbind_ok, hc, pbind_ok, hp, pbind_ok]

/-- A list of well-formed rows makes the whole loop succeed. -/
theorem foldRows_ok_of_wf (rows : List PyVal)
    (hw : ∀ row ∈ rows, wellFormedRow row = true) :
    ∀ acc : Totals, ∃ t', foldRows acc rows = Except.ok t' := by
  induction rows with
  | nil => exact fun acc => ⟨acc, rfl⟩
  | cons row rest ih =>
      intro acc
      obtain ⟨acc1, h1⟩ := stepRow_ok_of_wf (hw row (List.mem_cons_self row rest)) acc
      obtain ⟨t', h2⟩ := ih (fun r hr => hw r (List.mem_cons_of_mem row hr)) acc1
      refine ⟨t', ?_⟩
      unfold foldRows
      rw [h1, pbind_ok, h2]

/-- A successful `calculate_indicators` call is `mkIndicators` of a
successful run of the loop over the payload's rows. -/
theorem calculate_indicators_ok_inv {api : List (String × PyVal)}
    {r : Indicators} (h : calculate_indicators api = Except.ok r) :
    ∃ acc, foldRows initTotals (pyRows api) = Except.ok acc ∧
      r = mkIndicators acc := by
  unfold calculate_indicators at h
  split at h
  · cases h
  · split at h
    · rename_i rows heq
      split at h
      · cases h
      · rename_i acc hf
        cases h
        exact ⟨acc, by rw [show pyRows api = rows by simp [pyRows, heq], hf], rfl⟩
    · cases h

/-- When every row's call volume is positive, the filtered and unfiltered
call accumulators move in lockstep through the loop. -/
theorem foldRows_ce2 (rows : List PyVal) :
    ∀ acc acc', foldRows acc rows = Except.ok acc' →
      (∀ row ∈ rows, ∀ sd, readSide row "call_options" = Except.ok sd → 0 < sd.vol) →
      acc.total_ce_oi_value_2 = acc.total_ce_oi_value →
      acc'.total_ce_oi_value_2 = acc'.total_ce_oi_value := by
  induction rows with
  | nil =>
      intro acc acc' h _ hacc
      injection h with h2
      exact h2 ▸ hacc
  | cons row rest ih =>
      intro acc acc' h hv hacc
      unfold foldRows at h
      cases hs : stepRow acc row with
      | error e => rw [hs, pbind_err] at h; cases h
      | ok acc1 =>
          rw [hs, pbind_ok] at h
          obtain ⟨spot, c, p, -, hc, -, rfl⟩ := stepRow_ok_inv hs
          refine ih _ _ h (fun r hr => hv r (List.mem_cons_of_mem row hr)) ?_
          have hvol := hv row (List.mem_cons_self row rest) c hc
          simp [updateTotals, if_pos hvol, hacc]

/-- Put-side analogue of `foldRows_ce2`. -/
theorem foldRows_pe2 (rows : List PyVal) :
    ∀ acc acc', foldRows acc rows = Except.ok acc' →
      (∀ row ∈ rows, ∀ sd, readSide row "put_options" = Except.ok sd → 0 < sd.vol) →
      acc.total_pe_oi_value_2 = acc.total_pe_oi_value →
      acc'.total_pe_oi_value_2 = acc'.total_pe_oi_value := by
  induction rows with
  | nil =>
      intro acc acc' h _ hacc
      injection h with h2
      exact h2 ▸ hacc
  | cons row rest ih =>
      intro acc acc' h hv hacc
      unfold foldRows at h
      cases hs : stepRow acc row with
      | error e => rw [hs, pbind_err] at h; cases h
      | ok acc1 =>
          rw [hs, pbind_ok] at h
          obtain ⟨spot, c, p, -, -, hp, rfl⟩ := stepRow_ok_inv hs
          refine ih _ _ h (fun r hr => hv r (List.mem_cons_of_mem row hr)) ?_
          have hvol := hv row (List.mem_cons_self row rest) p hp
          simp [updateTotals, if_pos hvol, hacc]

/-! ### Claim theorems -/

/-- C2: every result `calculate_indicators` returns satisfies exactly
`diff_oi_value = total_ce_oi_value - total_pe_oi_value`,
`ratio_oi_value = total_ce_oi_value / total_pe_oi_value` when
`total_pe_oi_value ≠ 0` and `0` when it is `0`, the same two equations for the
volume-filtered `_2` fields, and
`diff_trade_value = total_ce_trade_value - total_pe_trade_value`. -/
theorem calculate_indicators_derived_equations :
    ∀ (api : List (String × PyVal)) (r : Indicators),
      calculate_indicators api = Except.ok r →
      (r.diff_oi_value = r.total_ce_oi_value - r.total_pe_oi_value ∧
       (r.total_pe_oi_value ≠ 0 →
         r.ratio_oi_value = r.total_ce_oi_value / r.total_pe_oi_value) ∧
       (r.total_pe_oi_value = 0 → r.ratio_oi_value = 0)) ∧
      (r.diff_oi_value_2 = r.total_ce_oi_value_2 - r.total_pe_oi_value_2 ∧
       (r.total_pe_oi_value_2 ≠ 0 →
         r.ratio_oi_value_2 = r.total_ce_oi_value_2 / r.total_pe_oi_value_2) ∧
       (r.total_pe_oi_value_2 = 0 → r.ratio_oi_value_2 = 0)) ∧
      r.diff_trade_value = r.total_ce_trade_value - r.total_pe_trade_value := by
  intro api r h
  obtain ⟨acc, -, rfl⟩ := calculate_indicators_ok_inv h
  refine ⟨⟨rfl, fun h0 => ?_, fun h0 => ?_⟩, ⟨rfl, fun h0 => ?_, fun h0 => ?_⟩, rfl⟩ <;>
    simp only [mkIndicators] at h0 ⊢ <;> simp [h0]

/-- Witness for C2 at the concrete two-strike payload `wApi`, where the put
total `1020` is non-zero. -/
theorem calculate_indicators_derived_equations_check :
    wInd.diff_oi_value = wInd.total_ce_oi_value - wInd.total_pe_oi_value ∧
    wInd.ratio_oi_value = wInd.total_ce_oi_value / wInd.total_pe_oi_value := by
  obtain ⟨⟨h1, h2, -⟩, -, -⟩ :=
    calculate_indicators_derived_equations wApi wInd rfl
  refine ⟨h1, h2 ?_⟩
  rw [show wInd.total_pe_oi_value = (0 : ℚ) + 40 * 12 + 60 * 9 from rfl]
  norm_num

/-- C9: on the payload with status `"success"` and an empty row list,
`calculate_indicators` returns normally and every numeric field of the result
is exactly `0.0`; in particular `underlying` is `0.0` and both ratio fields
take the zero-denominator branch. -/
theorem calculate_indicators_empty_rows :
    calculate_indicators [("status", PyVal.str "success"), ("data", PyVal.list [])] =
      Except.ok (mkIndicators initTotals) ∧
    mkIndicators initTotals =
      ⟨0, 0, 0, 0, 0, 0, 0, 0, 0, 0, 0, 0, 0, 0, 0, 0, 0, 0, 0, 0, 0, 0⟩ := by
  refine ⟨rfl, ?_⟩
  norm_num [mkIndicators, initTotals, Indicators.mk.injEq]

/-- C10: on every accepted payload, if every row's call volume is strictly
positive then `total_ce_oi_value_2 = total_ce_oi_value`, and symmetrically
for the put side. -/
theorem volume_filter_agreement :
    ∀ (api : List (String × PyVal)) (r : Indicators),
      calculate_indicators api = Except.ok r →
      ((∀ row ∈ pyRows api, ∀ sd,
          readSide row "call_options" = Except.ok sd → 0 < sd.vol) →
        r.total_ce_oi_value_2 = r.total_ce_oi_value) ∧
      ((∀ row ∈ pyRows api, ∀ sd,
          readSide row "put_options" = Except.ok sd → 0 < sd.vol) →
        r.total_pe_oi_value_2 = r.total_pe_oi_value) := by
  intro api r h
  obtain ⟨acc, hf, rfl⟩ := calculate_indicators_ok_inv h
  exact ⟨fun hv => foldRows_ce2 _ _ _ hf hv rfl,
         fun hv => foldRows_pe2 _ _ _ hf hv rfl⟩

/-- Witness for C10 at `wApi`, where every volume is `1`. -/
theorem volume_filter_agreement_check :
    wInd.total_ce_oi_value_2 = wInd.total_ce_oi_value := by
  refine (volume_filter_agreement wApi wInd rfl).1 ?_
  intro row hr sd hsd
  rw [show pyRows wApi =
      [mkChainRow 25000 100 90 10 1 40 50 12 1,
       mkChainRow 25000 50 50 8 1 60 60 9 1] from rfl] at hr
  simp only [List.mem_cons, List.not_mem_nil, or_false] at hr
  rcases hr with rfl | rfl
  · rw [show readSide (mkChainRow 25000 100 90 10 1 40 50 12 1) "call_options" =
        Except.ok ⟨100, 90, 10, 1⟩ from rfl] at hsd
    injection hsd with h2
    rw [← h2]
    norm_num
  · rw [show readSide (mkChainRow 25000 50 50 8 1 60 60 9 1) "call_options" =
        Except.ok ⟨50, 50, 8, 1⟩ from rfl] at hsd
    injection hsd with h2
    rw [← h2]
    norm_num

/-- C8: `calculate_indicators` raises `ValueError` iff the payload's status is
not `"success"` or its `data` field is not a list, and on a success status, a
list `data` and well-formed rows it returns normally. -/
theorem calculate_indicators_valueError_iff :
    ∀ api : List (String × PyVal),
      (calculate_indicators api = Except.error PyError.valueError ↔
        statusIsSuccess api = false ∨ dataBad api = true) ∧
      (statusIsSuccess api = true → dataBad api = false →
        (∀ row ∈ pyRows api, wellFormedRow row = true) →
        ∃ r, calculate_indicators api = Except.ok r) := by
  intro api
  refine ⟨⟨fun h => ?_, fun h => ?_⟩, fun hs hd hw => ?_⟩
  · by_cases hs : statusIsSuccess api = false
    · exact Or.inl hs
    · right
      unfold calculate_indicators at h
      rw [if_neg hs] at h
      cases hdv : dataVal api with
      | list rows =>
          simp only [hdv] at h
          cases hf : foldRows initTotals rows with
          | error e =>
              simp only [hf] at h
              injection h with h2
              rcases foldRows_aerr rows initTotals e hf with h1 | h1 <;>
                (rw [h1] at h2; cases h2)
          | ok acc => simp only [hf] at h; cases h
      | none => simp [dataBad, hdv]
      | bool b => simp [dataBad, hdv]
      | int n => simp [dataBad, hdv]
      | float q => simp [dataBad, hdv]
      | str s => simp [dataBad, hdv]
      | dict kvs => simp [dataBad, hdv]
  · rcases h with hs | hd
    · unfold calculate_indicators
      rw [if_pos hs]
    · unfold calculate_indicators
      by_cases hs : statusIsSuccess api = false
      · rw [if_pos hs]
      · rw [if_neg hs]
        cases hdv : dataVal api with
        | list rows => simp [dataBad, hdv] at hd
        | none => simp [hdv]
        | bool b => simp [hdv]
        | int n => simp [hdv]
        | float q => simp [hdv]
        | str s => simp [hdv]
        | dict kvs => simp [hdv]
  · unfold calculate_indicators
    rw [if_neg (by simp [hs])]
    cases hdv : dataVal api with
    | list rows =>
        have hrows : pyRows api = rows := by simp [pyRows, hdv]
        obtain ⟨acc, hacc⟩ :=
          foldRows_ok_of_wf rows (by rw [← hrows]; exact hw) initTotals
        refine ⟨mkIndicators acc, ?_⟩
        simp [hdv, hacc]
    | none => simp [dataBad, hdv] at hd
    | bool b => simp [dataBad, hdv] at hd
    | int n => simp [dataBad, hdv] at hd
    | float q => simp [dataBad, hdv] at hd
    | str s => simp [dataBad, hdv] at hd
    | dict kvs => simp [dataBad, hdv] at hd

/-- Witness for C8: a non-success status raises `ValueError`; the empty
success payload returns normally. -/
theorem calculate_indicators_valueError_iff_check :
    calculate_indicators [("status", PyVal.int 1)] = Except.error PyError.valueError ∧
    (∃ r, calculate_indicators
        [("status", PyVal.str "success"), ("data", PyVal.list [])] = Except.ok r) := by
  constructor
  · exact (calculate_indicators_valueError_iff [("status", PyVal.int 1)]).1.mpr
      (Or.inl rfl)
  · refine (calculate_indicators_valueError_iff _).2 rfl rfl ?_
    intro row hr
    rw [show pyRows [("status", PyVal.str "success"), ("data", PyVal.list [])] = []
        from rfl] at hr
    cases hr

set_option maxRecDepth 20000 in
/-- C4: refuted on the code. `_safe_float` catches only `TypeError` and
`ValueError`, so the `OverflowError` that `float(10 ** 400)` raises escapes
and the call raises instead of returning the default. -/
theorem safe_float_uncaught_overflow :
    _safe_float (PyVal.int ((10 : Int) ^ 400)) 0 =
      Except.error PyError.overflowError := by
  have h : floatOverflowBound ≤ ((10 : Int) ^ 400).natAbs := by decide
  simp [_safe_float, pyFloat, h]

/-- The opening purge either leaves the rows unchanged or removes them all,
and never touches `nextId` or the stored identity. -/
theorem purge_cases (s : Store) (t : Nat) :
    ((purgedStore s t).rows = s.rows ∨ (purgedStore s t).rows = []) ∧
    (purgedStore s t).nextId = s.nextId ∧
    (purgedStore s t).currentUrl = s.currentUrl := by
  unfold purgedStore check_and_clear_old_data
  cases hm : maxStoredDate s with
  | none => simp
  | some d =>
      simp only [hm]
      split
      · simp
      · simp

/-- C1: refuted on the code (the claim matches the documented intent, the
code's UTC `date` defeats it).  Concrete run: the store holds exactly one row,
saved at 2026-01-01 18:45:00 UTC with its stored `date` equal to the UTC day
20454 (2026-01-01); a second `save_snapshot` 30 seconds later — the same
minute bucket — finds `_today_ist` = 20455 (it is already 2026-01-02 in IST),
so `check_and_clear_old_data` deletes the existing row and the call inserts a
fresh row and returns `already_existed = false`, instead of returning the
existing row's identity with `already_existed = true` and writing nothing. -/
theorem save_snapshot_rollover_defeats_dedup :
    minuteBucket 1767293130 = minuteBucket 1767293100 ∧
    utcDay 1767293100 = 20454 ∧ istDay 1767293130 = 20455 ∧
    (save_snapshot ⟨[⟨1, 1767293100, 20454⟩], 2, ""⟩ 1767293130).2.already_existed
      = false ∧
    (save_snapshot ⟨[⟨1, 1767293100, 20454⟩], 2, ""⟩ 1767293130).1.rows =
      [⟨2, 1767293130, 20454⟩] := by
  decide

/-- C3: refuted on the code (the claim matches the module's own "FIX: use IST
date" comments, the code is the slip).  `save_snapshot` stores
`now.strftime("%Y-%m-%d")` of the UTC `now`: at 2026-01-01 18:45:00 UTC the
inserted row carries the UTC day 20454 (2026-01-01), not the IST day 20455
(2026-01-02) the specification requires. -/
theorem save_snapshot_stores_utc_date :
    (save_snapshot emptyStore 1767293100).2.date = utcDay 1767293100 ∧
    (save_snapshot emptyStore 1767293100).1.rows =
      [⟨1, 1767293100, utcDay 1767293100⟩] ∧
    utcDay 1767293100 = 20454 ∧ istDay 1767293100 = 20455 ∧
    utcDay 1767293100 ≠ istDay 1767293100 := by
  decide

/-- Counterexample to C5 as stated: two saves in different minute buckets
(2026-01-01 18:29:00 UTC and 18:31:00 UTC, from an empty store) leave one
stored row, not two — IST midnight falls between them, so the second call's
day-rollover purge deletes the first row before inserting. -/
theorem two_buckets_single_row_cx :
    minuteBucket 1767292140 ≠ minuteBucket 1767292260 ∧
    (save_snapshot (save_snapshot emptyStore 1767292140).1 1767292260).1.rows.length
      = 1 := by
  decide

/-- When the minute-bucket lookup finds nothing, `save_snapshot` takes the
insert branch. -/
theorem save_snapshot_none {s : Store} {t : Nat}
    (hfind : (purgedStore s t).rows.find?
      (fun r => minuteBucket r.ts == minuteBucket t) = Option.none) :
    save_snapshot s t =
      ({ purgedStore s t with
          rows := (purgedStore s t).rows ++ [⟨(purgedStore s t).nextId, t, utcDay t⟩],
          nextId := (purgedStore s t).nextId + 1 },
       ⟨(purgedStore s t).nextId, t, utcDay t, false⟩) := by
  unfold save_snapshot
  rw [hfind]

/-- C5 (amended): a save that finds no row in its minute bucket always inserts
a full-second-precision row and returns `already_existed = false`; and two
saves in different minute buckets yield exactly two rows provided the
day-rollover purge does not fire between them (the first row's stored date
equals the IST day of the second save). -/
theorem save_snapshot_insert_contract :
    (∀ (s : Store) (t : Nat),
      (∀ r ∈ s.rows, minuteBucket r.ts ≠ minuteBucket t) →
      (save_snapshot s t).2.already_existed = false ∧
      (save_snapshot s t).2.ts = t ∧
      (save_snapshot s t).2.id = s.nextId ∧
      ∃ row ∈ (save_snapshot s t).1.rows, row.ts = t ∧ row.id = s.nextId) ∧
    (∀ t1 t2 : Nat,
      minuteBucket t1 ≠ minuteBucket t2 →
      utcDay t1 = istDay t2 →
      (save_snapshot (save_snapshot emptyStore t1).1 t2).1.rows.length = 2) := by
  constructor
  · intro s t hnb
    have hp := purge_cases s t
    have hfind : (purgedStore s t).rows.find?
        (fun r => minuteBucket r.ts == minuteBucket t) = Option.none := by
      rw [List.find?_eq_none]
      intro r hr
      rcases hp.1 with he | he
      · rw [he] at hr
        simpa using hnb r hr
      · rw [he] at hr
        cases hr
    rw [save_snapshot_none hfind]
    exact ⟨rfl, rfl, hp.2.1,
      ⟨⟨(purgedStore s t).nextId, t, utcDay t⟩,
        List.mem_append_right _ (List.mem_singleton_self _), rfl, hp.2.1⟩⟩
  · intro t1 t2 hne heq
    have h1 : (save_snapshot emptyStore t1).1 = ⟨[⟨1, t1, utcDay t1⟩], 2, ""⟩ := rfl
    rw [h1]
    have hpp : purgedStore ⟨[⟨1, t1, utcDay t1⟩], 2, ""⟩ t2 =
        ⟨[⟨1, t1, utcDay t1⟩], 2, ""⟩ := by
      unfold purgedStore check_and_clear_old_data
      simp only [show maxStoredDate ⟨[⟨1, t1, utcDay t1⟩], 2, ""⟩ =
        Option.some (utcDay t1) from rfl]
      rw [if_neg (by simp [heq])]
    have hfind : (purgedStore ⟨[⟨1, t1, utcDay t1⟩], 2, ""⟩ t2).rows.find?
        (fun r => minuteBucket r.ts == minuteBucket t2) = Option.none := by
      rw [hpp, List.find?_eq_none]
      intro r hr
      rw [List.mem_singleton] at hr
      subst hr
      simpa using hne
    rw [save_snapshot_none hfind, hpp]
    rfl

/-- Witness for the amended C5: from the empty store, saving at
2026-01-01 04:30:00 UTC and 04:31:00 UTC (10:00 and 10:01 IST, same day both
in UTC and IST) inserts two rows. -/
theorem save_snapshot_insert_contract_check :
    (save_snapshot emptyStore 1767241800).2.already_existed = false ∧
    (save_snapshot (save_snapshot emptyStore 1767241800).1 1767241860).1.rows.length
      = 2 := by
  constructor
  · exact ((save_snapshot_insert_contract.1 emptyStore 1767241800)
      (by intro r hr; simp [emptyStore] at hr)).1
  · exact save_snapshot_insert_contract.2 1767241800 1767241860
      (by decide) (by decide)

/-- C6: the source-change check clears all snapshots, adopts the new identity
and returns `true` exactly when a non-empty stored identity differs from the
new one; on a first-ever call (empty stored identity) or an unchanged
identity it only adopts the identity and returns `false`, deleting nothing. -/
theorem url_change_contract :
    ∀ (s : Store) (u : String),
      (s.currentUrl ≠ "" → s.currentUrl ≠ u →
        check_and_clear_for_url_change s u =
          ({ s with rows := [], currentUrl := u }, true)) ∧
      (s.currentUrl = "" →
        check_and_clear_for_url_change s u = ({ s with currentUrl := u }, false)) ∧
      (s.currentUrl = u →
        check_and_clear_for_url_change s u = ({ s with currentUrl := u }, false)) := by
  intro s u
  refine ⟨fun h1 h2 => ?_, fun h => ?_, fun h => ?_⟩
  · unfold check_and_clear_for_url_change
    rw [if_pos ⟨h1, h2⟩]
  · unfold check_and_clear_for_url_change
    rw [if_neg (by simp [h])]
  · unfold check_and_clear_for_url_change
    rw [if_neg (by simp [h])]

/-- Witness for C6: a changed identity clears the row and reports `true`; an
unchanged identity keeps it and reports `false`. -/
theorem url_change_contract_check :
    check_and_clear_for_url_change ⟨[⟨1, 10, 0⟩], 2, "a"⟩ "b" =
      (⟨[], 2, "b"⟩, true) ∧
    check_and_clear_for_url_change ⟨[⟨1, 10, 0⟩], 2, "a"⟩ "a" =
      (⟨[⟨1, 10, 0⟩], 2, "a"⟩, false) := by
  constructor
  · exact (url_change_contract ⟨[⟨1, 10, 0⟩], 2, "a"⟩ "b").1
      (by decide) (by decide)
  · exact (url_change_contract ⟨[⟨1, 10, 0⟩], 2, "a"⟩ "a").2.2 rfl

/-- C7: a timer tick whose IST time falls on Saturday or Sunday
(`weekday() ≥ 5`) or outside the 09:14-15:31 window performs no vendor fetch
and writes no snapshot — `scheduled_fetch` returns before either effect,
whatever the session and fetch states are. -/
theorem scheduled_fetch_market_gate :
    ∀ (t : Nat) (ready fetchOk : Bool),
      5 ≤ weekdayIST t ∨ hmIST t < 9 * 60 + 14 ∨ 15 * 60 + 31 < hmIST t →
      scheduled_fetch t ready fetchOk = [] := by
  intro t ready fetchOk h
  have hm : _is_market_hours t = false := by
    unfold _is_market_hours
    split
    · rfl
    · rename_i hwk
      rcases h with h | h | h
      · exact absurd h hwk
      · have h2 : ¬(9 * 60 + 14 ≤ hmIST t) := by omega
        simp [h2]
      · have h2 : ¬(hmIST t ≤ 15 * 60 + 31) := by omega
        simp [h2]
  unfold scheduled_fetch
  rw [hm]
  simp

/-- Witness for C7: Saturday 1970-01-03 05:30 IST is gated. -/
theorem scheduled_fetch_market_gate_check :
    scheduled_fetch 172800 true true = [] :=
  scheduled_fetch_market_gate 172800 true true (Or.inl (by decide))

end OIC
